import Mathlib

/-!
Shallow embedding of `src/conanfile.py` (the AtomicStrain Conan package
manifest) and proofs of its specified properties.

The manifest is declarative: a class `AtomicStrainConan` with static
attribute declarations (`name`, `version`, `package_type`, `license`,
`settings`, `requires`, `exports_sources`) and five lifecycle hooks
(`layout`, `generate`, `build`, `package`, `package_info`).  The first four
hooks only delegate to the native CMake build driver; `package_info` writes
the published consumption metadata into `self.cpp_info`.

The embedding models:
  - the external driver invocations a hook can issue (`DriverCall`);
  - the manifest state (`ConanState`), including the values of the
    build-parameterizing settings injected by the invoking environment
    (`env_settings`) and the consumption metadata (`CppInfo`);
  - each hook as a function from state to an (issued call trace, new state)
    pair, mirroring the straight-line Python method bodies;
  - a fallible execution semantics `runCalls` in which each delegated driver
    call may fail, recording the calls actually attempted.
-/

namespace AtomicStrain

/-- An invocation of the native build driver (`conan.tools.cmake`) that a
lifecycle hook of the manifest can delegate to. One constructor per distinct
driver call appearing in `src/conanfile.py`. -/
inductive DriverCall where
  /-- `cmake_layout(self)` -/
  | cmakeLayout
  /-- `CMakeToolchain(self).generate()` -/
  | toolchainGenerate
  /-- `CMakeDeps(self).generate()` -/
  | depsGenerate
  /-- `CMake(self).configure()` -/
  | cmakeConfigure
  /-- `CMake(self).build()` -/
  | cmakeBuild
  /-- `CMake(self).install()` -/
  | cmakeInstall
  deriving DecidableEq

/-- The consumption metadata object `self.cpp_info` written by
`package_info`: named properties, the library artifact names, and the
upstream dependency targets. -/
structure CppInfo where
  properties : List (String × String)
  libs : List String
  requires : List String
  deriving DecidableEq

/-- `cpp_info.set_property(key, value)`: sets `key` to `value`,
overwriting any previous binding for `key`. -/
def CppInfo.set_property (c : CppInfo) (key value : String) : CppInfo :=
  { c with properties := (key, value) :: c.properties.filter (fun kv => kv.1 != key) }

/-- The state of the manifest object (`self` in the Python class): the
statically declared attributes, the values of the build-parameterizing
settings supplied by the invoking build environment, and the `cpp_info`
consumption metadata. -/
structure ConanState where
  name : String
  version : String
  package_type : String
  license : String
  settings : List String
  requires : List String
  exports_sources : List String
  /-- Values of the declared settings, injected by the invoking build
  environment, never assigned by the manifest itself. -/
  env_settings : List (String × String)
  cpp_info : CppInfo
  deriving DecidableEq

/-- A fresh, empty `cpp_info` object as it exists before `package_info`
runs. -/
def initCppInfo : CppInfo :=
  { properties := [], libs := [], requires := [] }

/-- The `AtomicStrainConan` class declaration of `src/conanfile.py`
(lines 5-17): the static attribute values, with the settings values `env`
supplied by the invoking build environment. -/
def AtomicStrainConan (env : List (String × String)) : ConanState :=
  { name := "atomic-strain"
    version := "1.0.0"
    package_type := "static-library"
    license := "MIT"
    settings := ["os", "arch", "compiler", "build_type"]
    requires := ["coretoolkit/1.0.0", "nlohmann_json/3.11.3",
                 "spdlog/1.14.1", "fmt/10.2.1"]
    exports_sources := ["CMakeLists.txt", "include/*", "src/*"]
    env_settings := env
    cpp_info := initCppInfo }

/-- A hook statement: given the manifest state, the driver calls it issues
and the resulting state. -/
abbrev Step := ConanState → List DriverCall × ConanState

/-- `cmake_layout(self)`: delegates the layout setup to the driver; does
not touch the manifest state. -/
def cmake_layout : Step := fun s => ([DriverCall.cmakeLayout], s)

/-- `CMakeToolchain(self).generate()`: produces the toolchain descriptor. -/
def CMakeToolchain_generate : Step := fun s => ([DriverCall.toolchainGenerate], s)

/-- `CMakeDeps(self).generate()`: produces the dependency descriptor. -/
def CMakeDeps_generate : Step := fun s => ([DriverCall.depsGenerate], s)

/-- `cmake.configure()` on the `CMake(self)` helper. -/
def CMake_configure : Step := fun s => ([DriverCall.cmakeConfigure], s)

/-- `cmake.build()` on the `CMake(self)` helper. -/
def CMake_build : Step := fun s => ([DriverCall.cmakeBuild], s)

/-- `cmake.install()` on the `CMake(self)` helper. -/
def CMake_install : Step := fun s => ([DriverCall.cmakeInstall], s)

/-- Sequencing of two hook statements, as consecutive lines of a Python
method body: run the first, then the second on the resulting state, and
concatenate the issued call traces. -/
def seqSteps (f g : Step) : Step := fun s =>
  let r₁ := f s
  let r₂ := g r₁.2
  (r₁.1 ++ r₂.1, r₂.2)

/-- `def layout(self)` (lines 19-20): `cmake_layout(self)`. -/
def layout : Step := cmake_layout

/-- `def generate(self)` (lines 22-24): `CMakeToolchain(self).generate()`
then `CMakeDeps(self).generate()`. -/
def generate : Step := seqSteps CMakeToolchain_generate CMakeDeps_generate

/-- `def build(self)` (lines 26-29): `cmake.configure()` then
`cmake.build()`. -/
def build : Step := seqSteps CMake_configure CMake_build

/-- `def package(self)` (lines 31-33): `cmake.install()`. -/
def package : Step := CMake_install

/-- `def package_info(self)` (lines 35-43): sets the
`cmake_target_name` property, the `libs` list and the `requires` list of
`self.cpp_info`; issues no driver call. -/
def package_info (s : ConanState) : ConanState :=
  let c₁ := s.cpp_info.set_property "cmake_target_name" "atomic-strain::atomic-strain"
  let c₂ := { c₁ with libs := ["atomic-strain_lib"] }
  let c₃ := { c₂ with requires :=
    ["coretoolkit::coretoolkit", "nlohmann_json::nlohmann_json",
     "spdlog::spdlog", "fmt::fmt"] }
  { s with cpp_info := c₃ }

/-- The sequence of driver calls a hook issues from a given state. -/
def hookCalls (hook : Step) (s : ConanState) : List DriverCall :=
  (hook s).1

/-- Fallible execution of a sequence of delegated driver calls: each call is
handed to the external driver `drv`, which may fail.  Returns the list of
calls actually attempted and the outcome.  Execution stops at the first
failing call and the error is returned as is: there is no catching,
retrying, or fallback. -/
def runCalls (drv : DriverCall → Except ε Unit) : List DriverCall → List DriverCall × Except ε Unit
  | [] => ([], Except.ok ())
  | c :: cs =>
    match drv c with
    | Except.error e => ([c], Except.error e)
    | Except.ok _ =>
      let r := runCalls drv cs
      (c :: r.1, r.2)

/-- The package name of a dependency reference `name/version`: the
characters before the first slash. -/
def refName (ref : String) : String :=
  String.mk (ref.data.takeWhile (fun ch => ch != '/'))

/-- The version part of a dependency reference `name/version`: the
characters after the first slash. -/
def refVersion (ref : String) : String :=
  String.mk ((ref.data.dropWhile (fun ch => ch != '/')).drop 1)

/-- Whether a dependency reference uses a Conan version range
(`name/[expr]`, the version starting with an opening square bracket)
rather than a pinned, exact version. -/
def usesVersionRange (ref : String) : Bool :=
  match (refVersion ref).data with
  | [] => false
  | c :: _ => c == '['

/-- The build-system target Conan publishes for an upstream package
`pkg`: `pkg::pkg`. -/
def targetOfPackage (pkg : String) : String :=
  pkg ++ "::" ++ pkg

/-- Auxiliary: executing a call sequence whose first failing call is `c`
(all calls before it succeed) attempts exactly the calls up to and
including `c`, in order, once each, and returns the driver's error
unchanged. -/
theorem runCalls_stops_at_first_error {ε : Type} (drv : DriverCall → Except ε Unit)
    (pre post : List DriverCall) (c : DriverCall) (e : ε)
    (hok : ∀ x ∈ pre, drv x = Except.ok ())
    (herr : drv c = Except.error e) :
    runCalls drv (pre ++ c :: post) = (pre ++ [c], Except.error e) := by
  induction pre with
  | nil => simp [runCalls, herr]
  | cons a t ih =>
    have ha : drv a = Except.ok () := hok a (List.mem_cons_self a t)
    have ih' := ih (fun x hx => hok x (List.mem_cons_of_mem a hx))
    simp [runCalls, ha, ih']

/-- Claim C1: each lifecycle hook delegates to the native build driver and
performs exactly the delegated steps: `layout()` invokes the CMake layout
setup; `generate()` produces the toolchain descriptor and then the
dependency descriptor; `build()` configures the CMake build and then
compiles; `package()` installs the build output.  No hook performs any
other action: each issues exactly the listed driver calls and leaves the
manifest state unchanged. -/
theorem C1_hooks_delegate_exactly (s : ConanState) :
    hookCalls layout s = [DriverCall.cmakeLayout] ∧
    hookCalls generate s = [DriverCall.toolchainGenerate, DriverCall.depsGenerate] ∧
    hookCalls build s = [DriverCall.cmakeConfigure, DriverCall.cmakeBuild] ∧
    hookCalls package s = [DriverCall.cmakeInstall] ∧
    (layout s).2 = s ∧ (generate s).2 = s ∧ (build s).2 = s ∧ (package s).2 = s :=
  ⟨rfl, rfl, rfl, rfl, rfl, rfl, rfl, rfl⟩

/-- Claim C2: the manifest declares package identity exactly as name
`atomic-strain`, version `1.0.0`, license `MIT`, and package type
`static-library`, for every invoking environment. -/
theorem C2_package_identity (env : List (String × String)) :
    (AtomicStrainConan env).name = "atomic-strain" ∧
    (AtomicStrainConan env).version = "1.0.0" ∧
    (AtomicStrainConan env).license = "MIT" ∧
    (AtomicStrainConan env).package_type = "static-library" :=
  ⟨rfl, rfl, rfl, rfl⟩

/-- Claim C3: the manifest declares exactly four required upstream
packages — `coretoolkit/1.0.0`, `nlohmann_json/3.11.3`, `spdlog/1.14.1`,
`fmt/10.2.1` — each with a pinned single version; no entry uses a Conan
version range. -/
theorem C3_requires_pinned (env : List (String × String)) :
    (AtomicStrainConan env).requires =
      ["coretoolkit/1.0.0", "nlohmann_json/3.11.3", "spdlog/1.14.1", "fmt/10.2.1"] ∧
    (AtomicStrainConan env).requires.length = 4 ∧
    (AtomicStrainConan env).requires.all (fun r => !usesVersionRange r) = true := by
  refine ⟨rfl, rfl, ?_⟩
  show (["coretoolkit/1.0.0", "nlohmann_json/3.11.3", "spdlog/1.14.1",
         "fmt/10.2.1"] : List String).all (fun r => !usesVersionRange r) = true
  decide

/-- Claim C4: `package_info()` publishes consumption metadata consisting of
exactly the build-system target name property
`cmake_target_name ↦ atomic-strain::atomic-strain`, a `libs` list with the
single artifact `atomic-strain_lib`, and a `requires` list of exactly the
four upstream dependency targets. -/
theorem C4_published_metadata (env : List (String × String)) :
    (package_info (AtomicStrainConan env)).cpp_info.properties =
      [("cmake_target_name", "atomic-strain::atomic-strain")] ∧
    (package_info (AtomicStrainConan env)).cpp_info.libs = ["atomic-strain_lib"] ∧
    (package_info (AtomicStrainConan env)).cpp_info.requires =
      ["coretoolkit::coretoolkit", "nlohmann_json::nlohmann_json",
       "spdlog::spdlog", "fmt::fmt"] ∧
    (package_info (AtomicStrainConan env)).cpp_info.requires.length = 4 :=
  ⟨rfl, rfl, rfl, rfl⟩

/-- Claim C5: no hook contains validation, retry, or recovery logic.  For
every lifecycle hook, whenever a delegated driver call fails (all calls
before it having succeeded), the hook attempts exactly the calls up to and
including the failing one, each once, and propagates the driver's error
unchanged — no catch, no retry, no fallback action. -/
theorem C5_no_catch_retry_fallback {ε : Type} (env : List (String × String)) (hook : Step)
    (_hmem : hook = layout ∨ hook = generate ∨ hook = build ∨ hook = package)
    (drv : DriverCall → Except ε Unit) (pre post : List DriverCall)
    (c : DriverCall) (e : ε)
    (hsplit : hookCalls hook (AtomicStrainConan env) = pre ++ c :: post)
    (hok : ∀ x ∈ pre, drv x = Except.ok ())
    (herr : drv c = Except.error e) :
    runCalls drv (hookCalls hook (AtomicStrainConan env)) = (pre ++ [c], Except.error e) := by
  rw [hsplit]
  exact runCalls_stops_at_first_error drv pre post c e hok herr

/-- Witness for claim C5: a driver failing on the layout call makes
`layout()` attempt exactly that one call and return the error unchanged. -/
theorem C5_no_catch_retry_fallback_witness :
    runCalls (fun _ => Except.error (0 : Nat)) (hookCalls layout (AtomicStrainConan [])) =
      ([DriverCall.cmakeLayout], Except.error 0) :=
  C5_no_catch_retry_fallback [] layout (Or.inl rfl) (fun _ => Except.error (0 : Nat))
    [] [] DriverCall.cmakeLayout 0 rfl (fun x hx => absurd hx (List.not_mem_nil x)) rfl

/-- Claim C6: the manifest exports exactly three source locations: the
build-description file `CMakeLists.txt` and the two source trees
`include/*` and `src/*`. -/
theorem C6_exports_sources (env : List (String × String)) :
    (AtomicStrainConan env).exports_sources =
      ["CMakeLists.txt", "include/*", "src/*"] ∧
    (AtomicStrainConan env).exports_sources.length = 3 :=
  ⟨rfl, rfl⟩

/-- Claim C7: the settings declaration lists exactly the four
build-parameterizing settings `os`, `arch`, `compiler`, `build_type`, and
the manifest assigns a value to none of them: the settings values are
exactly those injected by the invoking build environment, and every hook
leaves them untouched. -/
theorem C7_settings_declared_not_assigned (env : List (String × String)) :
    (AtomicStrainConan env).settings = ["os", "arch", "compiler", "build_type"] ∧
    (AtomicStrainConan env).env_settings = env ∧
    ((layout (AtomicStrainConan env)).2).env_settings = env ∧
    ((generate (AtomicStrainConan env)).2).env_settings = env ∧
    ((build (AtomicStrainConan env)).2).env_settings = env ∧
    ((package (AtomicStrainConan env)).2).env_settings = env ∧
    (package_info (AtomicStrainConan env)).env_settings = env :=
  ⟨rfl, rfl, rfl, rfl, rfl, rfl, rfl⟩

/-- Claim C8: the published dependency targets are consistent with the
declared requirements: the `requires` list of the published `cpp_info` is
exactly the declared requirements list mapped entry-wise to
`pkg::pkg` where `pkg` is the package name of the reference — hence the
two lists have the same length and the same order of packages. -/
theorem C8_requires_consistent (env : List (String × String)) :
    (package_info (AtomicStrainConan env)).cpp_info.requires =
      (AtomicStrainConan env).requires.map (fun r => targetOfPackage (refName r)) := by
  show (["coretoolkit::coretoolkit", "nlohmann_json::nlohmann_json",
         "spdlog::spdlog", "fmt::fmt"] : List String) =
    (["coretoolkit/1.0.0", "nlohmann_json/3.11.3", "spdlog/1.14.1",
      "fmt/10.2.1"] : List String).map (fun r => targetOfPackage (refName r))
  decide

/-- Claim C9: every hook is deterministic with respect to the external
build environment: from any two manifest states each hook issues the same
sequence of driver invocations, and `package_info` publishes the same
consumption metadata whatever settings values the environment injects —
no hook branches on any input. -/
theorem C9_hooks_deterministic (s₁ s₂ : ConanState)
    (env₁ env₂ : List (String × String)) :
    hookCalls layout s₁ = hookCalls layout s₂ ∧
    hookCalls generate s₁ = hookCalls generate s₂ ∧
    hookCalls build s₁ = hookCalls build s₂ ∧
    hookCalls package s₁ = hookCalls package s₂ ∧
    (package_info (AtomicStrainConan env₁)).cpp_info =
      (package_info (AtomicStrainConan env₂)).cpp_info :=
  ⟨rfl, rfl, rfl, rfl, rfl⟩

/-- Claim C10: `package_info()` modifies only the `cpp_info` consumption
metadata: every other field of the manifest — name, version, package type,
license, settings (declared and injected values), requires, and
exports_sources — is left unchanged by `package_info` and by every other
hook. -/
theorem C10_package_info_frame (s : ConanState) :
    (package_info s).name = s.name ∧
    (package_info s).version = s.version ∧
    (package_info s).package_type = s.package_type ∧
    (package_info s).license = s.license ∧
    (package_info s).settings = s.settings ∧
    (package_info s).requires = s.requires ∧
    (package_info s).exports_sources = s.exports_sources ∧
    (package_info s).env_settings = s.env_settings ∧
    ((layout s).2 = s ∧ (generate s).2 = s) ∧
    ((build s).2 = s ∧ (package s).2 = s) :=
  ⟨rfl, rfl, rfl, rfl, rfl, rfl, rfl, rfl, ⟨rfl, rfl⟩, ⟨rfl, rfl⟩⟩

end AtomicStrain
